import Mathlib

/-!
Verification of the quiz application core (src/app.py): the
generation-validation pipeline `generate_quizzes` and the session
state machine behind the `/quiz`, `/answer` and `/result` routes.

The generator works on the value returned by `json.loads`, so JSON
values are embedded as an inductive type and the Python operations the
code performs on them (`in`, subscription, `isinstance`, `len`) are
embedded with their Python semantics, including the `TypeError` that
`key in x` raises on a number, boolean or null and that `x[key]` raises
on any non-dict, and the fact that Python `bool` is a subclass of `int`.
A raised error is an `Except.error`; the enclosing `try/except` of
`generate_quizzes` turns every raised error into the return value `None`.
-/

/-- JSON values as returned by a successful `json.loads`. Floats are not
modelled: no claim involves them. An object is the association list of a
Python dict, so its keys are distinct in any value `json.loads` produces. -/
inductive Json where
  | null : Json
  | bool : Bool → Json
  | int : Int → Json
  | str : String → Json
  | arr : List Json → Json
  | obj : List (String × Json) → Json

/-- Whether a JSON value is a dict. -/
def Json.isObj : Json → Bool
  | .obj _ => true
  | _ => false

/-- Python substring test `needle in hay` on strings. -/
def strContains (needle hay : String) : Bool :=
  (List.range (hay.length + 1)).any fun i => needle.toList.isPrefixOf (hay.toList.drop i)

/-- Python membership `key in x` on a JSON value: key lookup on a dict,
element equality on a list (a string equals only an equal string),
substring test on a string; a `TypeError` on null, booleans and numbers. -/
def pyContains (key : String) : Json → Except Unit Bool
  | .obj kvs => .ok (List.lookup key kvs).isSome
  | .arr xs => .ok (xs.any fun x => match x with | .str t => t == key | _ => false)
  | .str t => .ok (strContains key t)
  | .null => .error ()
  | .bool _ => .error ()
  | .int _ => .error ()

/-- Python subscription `x[key]` with a string key: dict lookup
(`KeyError` when the key is absent), `TypeError` on every non-dict. -/
def pyGetItemStr (x : Json) (key : String) : Except Unit Json :=
  match x with
  | .obj kvs =>
    match List.lookup key kvs with
    | some v => .ok v
    | none => .error ()
  | _ => .error ()

/-- Python `isinstance(x, list)`. -/
def isinstance_list : Json → Bool
  | .arr _ => true
  | _ => false

/-- Python `isinstance(x, int)`: `bool` is a subclass of `int`, so JSON
booleans pass this test. -/
def isinstance_int : Json → Bool
  | .int _ => true
  | .bool _ => true
  | _ => false

/-- The integer Python sees in a value that passed `isinstance(x, int)`
(`True` is 1, `False` is 0). -/
def asInt : Json → Int
  | .int n => n
  | .bool b => if b then 1 else 0
  | _ => 0

/-- The per-element condition of the validation loop (app.py lines 61-63),
with Python left-to-right short-circuit evaluation of the `and` chain; a
`TypeError` raised by `in` or by a subscription propagates as an error. -/
def elemCheck (quiz : Json) : Except Unit Bool :=
  match pyContains "question" quiz with
  | .error e => .error e
  | .ok false => .ok false
  | .ok true =>
    match pyContains "options" quiz with
    | .error e => .error e
    | .ok false => .ok false
    | .ok true =>
      match pyContains "correct_answer_index" quiz with
      | .error e => .error e
      | .ok false => .ok false
      | .ok true =>
        match pyGetItemStr quiz "options" with
        | .error e => .error e
        | .ok opts =>
          if !isinstance_list opts then .ok false
          else if !(match opts with | .arr os => os.length == 4 | _ => false) then .ok false
          else
            match pyGetItemStr quiz "correct_answer_index" with
            | .error e => .error e
            | .ok cai =>
              if !isinstance_int cai then .ok false
              else .ok (decide (0 ≤ asInt cai) && decide (asInt cai < 4))

/-- The validation loop of app.py lines 59-64: keep, in order, the elements
passing `elemCheck`; an error raised while checking an element aborts the
loop (and, through the enclosing `try`, the whole call). -/
def filterValid : List Json → Except Unit (List Json)
  | [] => .ok []
  | quiz :: rest =>
    match elemCheck quiz with
    | .error e => .error e
    | .ok b =>
      match filterValid rest with
      | .error e => .error e
      | .ok tail => .ok (if b then quiz :: tail else tail)

/-- Outcome of the external call followed by `json.loads`: the request
raised (service error), the text did not parse as JSON, or it parsed. -/
inductive ModelResponse where
  | svcError : ModelResponse
  | unparsable : ModelResponse
  | parsed : Json → ModelResponse

/-- generate_quizzes (app.py lines 16-74) as a function of the outcome of
the external call: every failure path of the Python function, including
every exception caught by its `try/except`, returns `None`; success
returns the dict holding the surviving elements under the key
`questions`. -/
def generate_quizzes (resp : ModelResponse) (count : Nat := 5) : Option Json :=
  match resp with
  | .svcError => none
  | .unparsable => none
  | .parsed quizzes =>
    match quizzes with
    | .obj kvs =>
      match List.lookup "questions" kvs with
      | none => none
      | some questions =>
        match questions with
        | .arr qlist =>
          if qlist.length < count then none
          else
            match filterValid qlist with
            | .error _ => none
            | .ok valid_quizzes =>
              if valid_quizzes.length < count then none
              else some (.obj [("questions", .arr valid_quizzes)])
        | _ => none
    | _ => none

/-- The per-element shape stated by the spec (section 4.1 step 3),
independently of the loop: the element carries a `question` key, an
`options` value that is a list of exactly 4 elements, and a
`correct_answer_index` that is an integer (in the Python sense, where a
boolean is an integer) in [0,3]. Refinement target for the retention
claims. -/
def specValidElement (q : Json) : Bool :=
  match q with
  | .obj kvs =>
    (List.lookup "question" kvs).isSome &&
    (match List.lookup "options" kvs with
      | some (.arr os) => os.length == 4
      | _ => false) &&
    (match List.lookup "correct_answer_index" kvs with
      | some v => isinstance_int v && decide (0 ≤ asInt v) && decide (asInt v < 4)
      | _ => false)
  | _ => false

/-- The retention decision of the loop for one element: kept exactly when
the check returns true; an element whose check raises is not kept. -/
def codeValid (q : Json) : Bool :=
  match elemCheck q with
  | .ok b => b
  | .error _ => false

/-- The questions list of a parsed response, when the response is a dict
whose `questions` key holds a list. -/
def questionsList (j : Json) : Option (List Json) :=
  match j with
  | .obj kvs =>
    match List.lookup "questions" kvs with
    | some (.arr qs) => some qs
    | _ => none
  | _ => none

/-- Number of elements of the questions list satisfying the per-element
shape (0 when there is no questions list). -/
def numValidQuestions (j : Json) : Nat :=
  ((questionsList j).getD []).countP specValidElement

/-- A validated question as stored in the session. -/
structure Question where
  question : String
  options : List String
  correct_answer_index : Int

/-- The server-held session state: the stored quiz set, the index of the
current question and the score (session keys `quizzes`,
`current_question`, `score`). -/
structure SessionState where
  questions : List Question
  current_question : Nat
  score : Nat

/-- Session state created by the `/start` route after a successful
generation (app.py lines 92-96). -/
def initSession (qs : List Question) : SessionState :=
  { questions := qs, current_question := 0, score := 0 }

/-- Core of the `/answer` route (app.py lines 134-139): the score
increments when the guarded comparison hits; the index always advances by
one. The `Except.error` arm is the IndexError an unguarded subscription
would raise; the preceding bounds guard makes it unreachable. -/
def submitAnswer (s : SessionState) (selected : Int) : Except Unit SessionState :=
  if s.current_question < s.questions.length then
    match s.questions.get? s.current_question with
    | some q =>
      .ok { s with
        score := if selected == q.correct_answer_index then s.score + 1 else s.score,
        current_question := s.current_question + 1 }
    | none => .error ()
  else .ok { s with current_question := s.current_question + 1 }

/-- The `/answer` route (app.py line 129 onward): a missing `option` form
field defaults to 0 before the submission is processed. -/
def answer (formOption : Option Int) (s : SessionState) : Except Unit SessionState :=
  submitAnswer s (formOption.getD 0)

/-- Completion test of the `/quiz` route (app.py line 114): every question
is done when `current >= len(questions)`. -/
def isComplete (s : SessionState) : Bool :=
  decide (s.questions.length ≤ s.current_question)

/-- The question the `/quiz` route shows, `none` once the session is
complete (app.py lines 113-117). -/
def currentQuestion (s : SessionState) : Option Question :=
  if s.current_question < s.questions.length then s.questions.get? s.current_question
  else none

/-- The reading of the `/result` route: (score, total). -/
def finalScore (s : SessionState) : Nat × Nat :=
  (s.score, s.questions.length)

/-- Run a sequence of answer submissions against a session. -/
def runAnswers (sels : List Int) (s : SessionState) : Except Unit SessionState :=
  match sels with
  | [] => .ok s
  | sel :: rest =>
    match submitAnswer s sel with
    | .error e => .error e
    | .ok s1 => runAnswers rest s1

/-- A well-formed question element, used by concrete test inputs. -/
def sampleValidQuestion : Json :=
  .obj [("question", .str "q"),
        ("options", .arr [.str "a", .str "b", .str "c", .str "d"]),
        ("correct_answer_index", .int 0)]

/-- A concrete validated question, used by concrete session runs. -/
def sampleQuestion : Question :=
  { question := "q", options := ["a", "b", "c", "d"], correct_answer_index := 0 }

/-- A malformed question element with only 3 options, as in the concrete
scenario of spec section 8. -/
def shortOptionsQuestion : Json :=
  .obj [("question", .str "q"),
        ("options", .arr [.str "a", .str "b", .str "c"]),
        ("correct_answer_index", .int 1)]

/-! ### Lemmas about the validation loop -/

/-- On a dict element no step of the check raises, and the check computes
exactly the per-element shape of the spec. -/
theorem elemCheck_obj (kvs : List (String × Json)) :
    elemCheck (.obj kvs) = .ok (specValidElement (.obj kvs)) := by
  cases h1 : List.lookup "question" kvs with
  | none => simp [elemCheck, specValidElement, pyContains, h1]
  | some v1 =>
    cases h2 : List.lookup "options" kvs with
    | none => simp [elemCheck, specValidElement, pyContains, h1, h2]
    | some opts =>
      cases h3 : List.lookup "correct_answer_index" kvs with
      | none => simp [elemCheck, specValidElement, pyContains, pyGetItemStr, h1, h2, h3]
      | some cai =>
        cases opts <;> cases cai <;>
          simp [elemCheck, specValidElement, pyContains, pyGetItemStr, h1, h2, h3,
            isinstance_list, isinstance_int, asInt, Bool.and_assoc] <;>
          split <;> simp_all

/-- The retention decision agrees with the spec shape on every JSON value:
a dict is kept exactly when it has the shape; on any non-dict the check
either returns false or raises, so the element is never kept (and the
shape also rejects it). -/
theorem codeValid_eq_spec (q : Json) : codeValid q = specValidElement q := by
  cases q with
  | obj kvs => simp [codeValid, elemCheck_obj]
  | null => rfl
  | bool b => rfl
  | int n => rfl
  | str t =>
    cases hc1 : strContains "question" t with
    | false => simp [codeValid, elemCheck, specValidElement, pyContains, hc1]
    | true =>
      cases hc2 : strContains "options" t with
      | false => simp [codeValid, elemCheck, specValidElement, pyContains, hc1, hc2]
      | true =>
        cases hc3 : strContains "correct_answer_index" t with
        | false => simp [codeValid, elemCheck, specValidElement, pyContains, hc1, hc2, hc3]
        | true => simp [codeValid, elemCheck, specValidElement, pyContains, pyGetItemStr, hc1, hc2, hc3]
  | arr xs =>
    cases hc1 : xs.any fun x => match x with | .str s => s == "question" | _ => false with
    | false => simp [codeValid, elemCheck, specValidElement, pyContains, hc1]
    | true =>
      cases hc2 : xs.any fun x => match x with | .str s => s == "options" | _ => false with
      | false => simp [codeValid, elemCheck, specValidElement, pyContains, hc1, hc2]
      | true =>
        cases hc3 : xs.any fun x => match x with | .str s => s == "correct_answer_index" | _ => false with
        | false => simp [codeValid, elemCheck, specValidElement, pyContains, hc1, hc2, hc3]
        | true => simp [codeValid, elemCheck, specValidElement, pyContains, pyGetItemStr, hc1, hc2, hc3]

/-- When the loop finishes without raising, the survivors are exactly the
elements with the spec shape, in their original order. -/
theorem filterValid_ok_eq (qs l : List Json) (h : filterValid qs = .ok l) :
    l = qs.filter specValidElement := by
  induction qs generalizing l with
  | nil => simp [filterValid] at h; simp [h]
  | cons q rest ih =>
    simp only [filterValid] at h
    cases he : elemCheck q with
    | error e => rw [he] at h; cases h
    | ok b =>
      rw [he] at h
      cases hf : filterValid rest with
      | error e => rw [hf] at h; cases h
      | ok tail =>
        rw [hf] at h
        have hb : b = specValidElement q := by
          have := codeValid_eq_spec q
          rw [codeValid, he] at this
          exact this
        cases h
        have ht := ih tail hf
        subst ht
        subst hb
        simp [List.filter_cons]

/-- On a list of dict elements the loop never raises, and returns exactly
the elements with the spec shape. -/
theorem filterValid_all_obj (qs : List Json) (hobj : ∀ q ∈ qs, q.isObj = true) :
    filterValid qs = .ok (qs.filter specValidElement) := by
  induction qs with
  | nil => rfl
  | cons q rest ih =>
    have hq := hobj q (List.mem_cons_self q rest)
    obtain ⟨kvs, rfl⟩ : ∃ kvs, q = Json.obj kvs := by
      cases q <;> first | exact ⟨_, rfl⟩ | simp [Json.isObj] at hq
    have hrest : filterValid rest = .ok (rest.filter specValidElement) :=
      ih fun x hx => hobj x (List.mem_cons_of_mem _ hx)
    simp [filterValid, elemCheck_obj, hrest, List.filter_cons]

/-! ### Lemmas about generate_quizzes -/

/-- Whenever fewer than `count` elements have the per-element shape, every
path of the pipeline ends in `none`. -/
theorem generate_too_few_valid (j : Json) (count : Nat)
    (h : numValidQuestions j < count) :
    generate_quizzes (.parsed j) count = none := by
  cases j with
  | null => rfl
  | bool b => rfl
  | int n => rfl
  | str t => rfl
  | arr xs => rfl
  | obj kvs =>
    cases hq : List.lookup "questions" kvs with
    | none => simp [generate_quizzes, hq]
    | some v =>
      cases v with
      | arr qs =>
        have hnum : numValidQuestions (Json.obj kvs) = (qs.filter specValidElement).length := by
          simp [numValidQuestions, questionsList, hq, List.countP_eq_length_filter]
        simp only [generate_quizzes, hq]
        by_cases hlen : qs.length < count
        · simp [hlen]
        · simp only [if_neg hlen]
          cases hf : filterValid qs with
          | error e => rfl
          | ok l =>
            have hl : l = qs.filter specValidElement := filterValid_ok_eq qs l hf
            have hlt : l.length < count := by rw [hl, ← hnum]; exact h
            simp [hlt]
      | null => simp [generate_quizzes, hq]
      | bool b => simp [generate_quizzes, hq]
      | int n => simp [generate_quizzes, hq]
      | str t => simp [generate_quizzes, hq]
      | obj kvs2 => simp [generate_quizzes, hq]

/-- Shape of every successful call: the parsed response had a questions
list of at least `count` elements, at least `count` of them have the
per-element shape, and the result holds exactly the elements with the
shape, in their original order. -/
theorem generate_success_shape (j : Json) (count : Nat) (out : Json)
    (h : generate_quizzes (.parsed j) count = some out) :
    ∃ qs, questionsList j = some qs ∧ count ≤ qs.length ∧
      count ≤ (qs.filter specValidElement).length ∧
      out = .obj [("questions", .arr (qs.filter specValidElement))] := by
  cases j with
  | null => exact absurd h (by simp [generate_quizzes])
  | bool b => exact absurd h (by simp [generate_quizzes])
  | int n => exact absurd h (by simp [generate_quizzes])
  | str t => exact absurd h (by simp [generate_quizzes])
  | arr xs => exact absurd h (by simp [generate_quizzes])
  | obj kvs =>
    cases hq : List.lookup "questions" kvs with
    | none => simp [generate_quizzes, hq] at h
    | some v =>
      cases v with
      | null => simp [generate_quizzes, hq] at h
      | bool b => simp [generate_quizzes, hq] at h
      | int n => simp [generate_quizzes, hq] at h
      | str t => simp [generate_quizzes, hq] at h
      | obj kvs2 => simp [generate_quizzes, hq] at h
      | arr qs =>
        simp only [generate_quizzes, hq] at h
        by_cases hlen : qs.length < count
        · rw [if_pos hlen] at h; exact Option.noConfusion h
        · rw [if_neg hlen] at h
          cases hf : filterValid qs with
          | error e => simp [hf] at h
          | ok l =>
            simp only [hf] at h
            have hl : l = qs.filter specValidElement := filterValid_ok_eq qs l hf
            by_cases hlc : l.length < count
            · rw [if_pos hlc] at h; exact Option.noConfusion h
            · rw [if_neg hlc] at h
              cases h
              exact ⟨qs, by simp [questionsList, hq], by omega,
                by rw [← hl]; omega, by rw [hl]⟩

/-- When the questions key holds a list of dict elements of which at least
`count` have the shape, the call succeeds with exactly those elements. -/
theorem generate_all_obj_success (kvs : List (String × Json)) (qs : List Json) (count : Nat)
    (hq : List.lookup "questions" kvs = some (.arr qs))
    (hobj : ∀ q ∈ qs, q.isObj = true)
    (hc : count ≤ (qs.filter specValidElement).length) :
    generate_quizzes (.parsed (.obj kvs)) count
      = some (.obj [("questions", .arr (qs.filter specValidElement))]) := by
  have hlen : ¬ qs.length < count := by
    have := List.length_filter_le specValidElement qs
    omega
  simp [generate_quizzes, hq, hlen, filterValid_all_obj qs hobj, Nat.not_lt.mpr hc]

/-! ### Lemmas about the session state machine -/

/-- One answer submission never raises: it keeps the quiz set, advances
the index by exactly one, and either leaves the score unchanged or, only
when the index was still in bounds, increments it by one. -/
theorem submitAnswer_spec (s : SessionState) (sel : Int) :
    ∃ s', submitAnswer s sel = .ok s' ∧ s'.questions = s.questions ∧
      s'.current_question = s.current_question + 1 ∧
      (s'.score = s.score ∨
        (s'.score = s.score + 1 ∧ s.current_question < s.questions.length)) := by
  unfold submitAnswer
  by_cases hc : s.current_question < s.questions.length
  · have hg : s.questions.get? s.current_question
        = some (s.questions.get ⟨s.current_question, hc⟩) := List.get?_eq_get hc
    rw [if_pos hc, hg]
    refine ⟨_, rfl, rfl, rfl, ?_⟩
    by_cases he : sel = (s.questions.get ⟨s.current_question, hc⟩).correct_answer_index
    · right; exact ⟨by simp [he], hc⟩
    · left
      simp only [List.get_eq_getElem] at he
      simp [he]
  · rw [if_neg hc]
    exact ⟨_, rfl, rfl, rfl, Or.inl rfl⟩

/-- Running submissions from any state preserves the quiz set and adds the
number of submissions to the index. -/
theorem runAnswers_current (sels : List Int) (s s' : SessionState)
    (h : runAnswers sels s = .ok s') :
    s'.questions = s.questions ∧
      s'.current_question = s.current_question + sels.length := by
  induction sels generalizing s with
  | nil => simp [runAnswers] at h; simp [h]
  | cons a rest ih =>
    simp only [runAnswers] at h
    obtain ⟨s1, hok, hqs, hcur, _⟩ := submitAnswer_spec s a
    rw [hok] at h
    obtain ⟨h1, h2⟩ := ih s1 h
    refine ⟨by rw [h1, hqs], ?_⟩
    rw [h2, hcur, List.length_cons]
    omega

/-- The score bound is preserved along any run of submissions. -/
theorem runAnswers_score_inv (sels : List Int) (s s' : SessionState)
    (h : runAnswers sels s = .ok s')
    (hs : s.score ≤ s.current_question ∧ s.score ≤ s.questions.length) :
    s'.score ≤ s'.current_question ∧ s'.score ≤ s'.questions.length := by
  induction sels generalizing s with
  | nil => simp [runAnswers] at h; subst h; exact hs
  | cons a rest ih =>
    simp only [runAnswers] at h
    obtain ⟨s1, hok, hqs, hcur, hsc⟩ := submitAnswer_spec s a
    rw [hok] at h
    refine ih s1 h ?_
    rw [hqs, hcur]
    rcases hsc with h0 | ⟨h1, h2⟩ <;> omega

/-- When the parsed response is not a dict with a `questions` key holding a
list, the pipeline returns `none` at its first or second check. -/
theorem generate_no_questions_none (j : Json) (count : Nat)
    (h : questionsList j = none) :
    generate_quizzes (.parsed j) count = none := by
  cases j with
  | null => rfl
  | bool b => rfl
  | int n => rfl
  | str t => rfl
  | arr xs => rfl
  | obj kvs =>
    cases hq : List.lookup "questions" kvs with
    | none => simp [generate_quizzes, hq]
    | some v =>
      cases v with
      | arr qs => simp [questionsList, hq] at h
      | null => simp [generate_quizzes, hq]
      | bool b => simp [generate_quizzes, hq]
      | int n => simp [generate_quizzes, hq]
      | str t => simp [generate_quizzes, hq]
      | obj kvs2 => simp [generate_quizzes, hq]

/-! ### Claims -/

/-- C1 (corrected). As stated, the claim fails: an element of the
questions list that is not a mapping (here the number 7) makes the
membership test `'question' in quiz` raise a TypeError, which the
enclosing `try/except` turns into `None` for the whole call, even though
5 valid elements remain and `count = 5`. -/
theorem generate_filter_nonmapping_counterexample :
    generate_quizzes (.parsed (.obj [("questions", .arr
        [sampleValidQuestion, sampleValidQuestion, sampleValidQuestion,
         sampleValidQuestion, sampleValidQuestion, .int 7])])) 5 = none ∧
    numValidQuestions (.obj [("questions", .arr
        [sampleValidQuestion, sampleValidQuestion, sampleValidQuestion,
         sampleValidQuestion, sampleValidQuestion, .int 7])]) = 5 ∧
    elemCheck (.int 7) = .error () :=
  ⟨rfl, rfl, rfl⟩

/-- C1 (amended). For every parsed response whose questions elements are
all mappings, an element is retained exactly when it has the per-element
shape (a `question` key, an `options` list of exactly 4 elements and an
integer `correct_answer_index` in [0,3]), a failing element is dropped
without failing the batch, and when at least `count` valid elements
remain the call succeeds with exactly the valid subset. -/
theorem generate_filter_retention_all_mappings (kvs : List (String × Json))
    (qs : List Json) (count : Nat)
    (hq : List.lookup "questions" kvs = some (.arr qs))
    (hobj : ∀ q ∈ qs, q.isObj = true) :
    (∀ q ∈ qs, codeValid q = specValidElement q) ∧
    (count ≤ (qs.filter specValidElement).length →
      generate_quizzes (.parsed (.obj kvs)) count
        = some (.obj [("questions", .arr (qs.filter specValidElement))])) :=
  ⟨fun q _ => codeValid_eq_spec q,
   fun hc => generate_all_obj_success kvs qs count hq hobj hc⟩

/-- Witness for C1 at a concrete input. -/
theorem generate_filter_retention_all_mappings_witness :
    generate_quizzes (.parsed (.obj [("questions", .arr [sampleValidQuestion])])) 1
      = some (.obj [("questions", .arr ([sampleValidQuestion].filter specValidElement))]) :=
  (generate_filter_retention_all_mappings [("questions", .arr [sampleValidQuestion])]
    [sampleValidQuestion] 1 rfl (by decide)).2 (by decide)

/-- C2 (confirmed). When the parsed response is not a dict with a
`questions` list, or the list is shorter than `count`, or fewer than
`count` of its elements have the per-element shape, the call fails with
`none` and never returns a partial quiz set; each conjunct is one stage of
the pipeline short-circuiting to failure. -/
theorem generate_schema_validation_pipeline (j : Json) (count : Nat) :
    (questionsList j = none → generate_quizzes (.parsed j) count = none) ∧
    (∀ qs, questionsList j = some qs → qs.length < count →
      generate_quizzes (.parsed j) count = none) ∧
    (numValidQuestions j < count → generate_quizzes (.parsed j) count = none) := by
  refine ⟨fun h => generate_no_questions_none j count h, fun qs hq hlen => ?_,
    fun h => generate_too_few_valid j count h⟩
  apply generate_too_few_valid
  have hle : numValidQuestions j ≤ qs.length := by
    simp only [numValidQuestions, hq, Option.getD_some]
    exact List.countP_le_length _
  omega

/-- Witness for C2 at the concrete scenario of spec section 8: 5 elements
of which one has only 3 options, `count = 5`, so only 4 valid remain. -/
theorem generate_schema_validation_pipeline_witness :
    generate_quizzes (.parsed (.obj [("questions", .arr
        [sampleValidQuestion, sampleValidQuestion, shortOptionsQuestion,
         sampleValidQuestion, sampleValidQuestion])])) 5 = none :=
  (generate_schema_validation_pipeline (.obj [("questions", .arr
        [sampleValidQuestion, sampleValidQuestion, shortOptionsQuestion,
         sampleValidQuestion, sampleValidQuestion])]) 5).2.2 (by decide)

/-- C3 (corrected). As stated, the claim fails: this response holds 2
elements passing the shape check and `count = 1`, yet the call returns
`none`, because the non-mapping element 7 raises inside the loop and the
`try/except` fails the whole call. -/
theorem generate_overproduction_counterexample :
    generate_quizzes (.parsed (.obj [("questions", .arr
        [sampleValidQuestion, sampleValidQuestion, .int 7])])) 1 = none ∧
    numValidQuestions (.obj [("questions", .arr
        [sampleValidQuestion, sampleValidQuestion, .int 7])]) = 2 :=
  ⟨rfl, rfl⟩

/-- C3 (amended). For every parsed response whose questions elements are
all mappings, when more than `count` elements pass the shape check the
call returns a quiz set with ALL the valid elements, not truncated to
`count`. -/
theorem generate_overproduction_kept (kvs : List (String × Json))
    (qs : List Json) (count : Nat)
    (hq : List.lookup "questions" kvs = some (.arr qs))
    (hobj : ∀ q ∈ qs, q.isObj = true)
    (h : count < (qs.filter specValidElement).length) :
    generate_quizzes (.parsed (.obj kvs)) count
      = some (.obj [("questions", .arr (qs.filter specValidElement))]) :=
  generate_all_obj_success kvs qs count hq hobj (le_of_lt h)

/-- Witness for C3 at a concrete input: 2 valid elements, `count = 1`. -/
theorem generate_overproduction_kept_witness :
    generate_quizzes (.parsed (.obj [("questions", .arr
        [sampleValidQuestion, sampleValidQuestion])])) 1
      = some (.obj [("questions", .arr
        ([sampleValidQuestion, sampleValidQuestion].filter specValidElement))]) :=
  generate_overproduction_kept [("questions", .arr [sampleValidQuestion, sampleValidQuestion])]
    [sampleValidQuestion, sampleValidQuestion] 1 rfl (by decide) (by decide)

/-- C4 (corrected). As stated, the claim fails: after two submissions
against a one-question quiz the reachable state has index 2, which
exceeds the size 1, because the `/answer` route advances the index
unconditionally even when the quiz is already complete. -/
theorem session_index_exceeds_size_counterexample :
    runAnswers [0, 0] (initSession [sampleQuestion])
      = .ok (SessionState.mk [sampleQuestion] 2 1) ∧
    ¬ (SessionState.mk [sampleQuestion] 2 1).current_question
        ≤ (SessionState.mk [sampleQuestion] 2 1).questions.length :=
  ⟨rfl, by decide⟩

/-- C4 (amended). At every reachable session state,
`0 <= score <= currentIndex` and `score <= size`; the bound
`currentIndex <= size` does not hold once submissions continue past
completion. -/
theorem session_score_bound (qs : List Question) (sels : List Int) (s : SessionState)
    (h : runAnswers sels (initSession qs) = .ok s) :
    s.score ≤ s.current_question ∧ s.score ≤ s.questions.length :=
  runAnswers_score_inv sels (initSession qs) s h ⟨Nat.le_refl 0, Nat.zero_le _⟩

/-- Witness for C4 at a concrete run. -/
theorem session_score_bound_witness :
    (SessionState.mk [sampleQuestion] 1 1).score
        ≤ (SessionState.mk [sampleQuestion] 1 1).current_question ∧
    (SessionState.mk [sampleQuestion] 1 1).score
        ≤ (SessionState.mk [sampleQuestion] 1 1).questions.length :=
  session_score_bound [sampleQuestion] [0] (SessionState.mk [sampleQuestion] 1 1) rfl

/-- C5 (confirmed). Every answer submission advances the index by exactly
one, whatever the selected option, and along any run from the initial
state the index equals the number of submissions, so it never decreases
or skips. -/
theorem submitAnswer_always_advances :
    (∀ (s : SessionState) (sel : Int) (s' : SessionState),
      submitAnswer s sel = .ok s' → s'.current_question = s.current_question + 1) ∧
    (∀ (sels : List Int) (qs : List Question) (s' : SessionState),
      runAnswers sels (initSession qs) = .ok s' → s'.current_question = sels.length) := by
  constructor
  · intro s sel s' h
    obtain ⟨s1, hok, _, hcur, _⟩ := submitAnswer_spec s sel
    rw [h] at hok
    cases hok
    exact hcur
  · intro sels qs s' h
    rw [(runAnswers_current sels (initSession qs) s' h).2]
    simp [initSession]

/-- Witness for C5 at concrete submissions. -/
theorem submitAnswer_always_advances_witness :
    (SessionState.mk [] 1 0).current_question = (SessionState.mk [] 0 0).current_question + 1 ∧
    (SessionState.mk [] 2 0).current_question = ([0, 3] : List Int).length :=
  ⟨submitAnswer_always_advances.1 (SessionState.mk [] 0 0) 0 (SessionState.mk [] 1 0) rfl,
   submitAnswer_always_advances.2 [0, 3] [] (SessionState.mk [] 2 0) rfl⟩

/-- C6 (confirmed). `isComplete` is true exactly when the index has
reached the size, and once true it stays true across every further
submission (the only state-changing operation); the reads change
nothing. -/
theorem isComplete_iff_and_persistent :
    (∀ s : SessionState, isComplete s = true ↔ s.questions.length ≤ s.current_question) ∧
    (∀ (s : SessionState) (sel : Int) (s' : SessionState),
      submitAnswer s sel = .ok s' → isComplete s = true → isComplete s' = true) := by
  constructor
  · intro s
    simp [isComplete]
  · intro s sel s' h hc
    obtain ⟨s1, hok, hqs, hcur, _⟩ := submitAnswer_spec s sel
    rw [h] at hok
    cases hok
    simp only [isComplete, decide_eq_true_eq] at hc ⊢
    rw [hqs, hcur]
    omega

/-- Witness for C6 at a concrete complete session. -/
theorem isComplete_iff_and_persistent_witness :
    isComplete (SessionState.mk [] 1 0) = true :=
  isComplete_iff_and_persistent.2 (SessionState.mk [] 0 0) 5 (SessionState.mk [] 1 0)
    rfl (by decide)

/-- C7 (confirmed). An answer submission never raises; when the index is
already at or past the size, the comparison (and any indexing into the
questions) is skipped: the score is unchanged and only the index
advances. -/
theorem submitAnswer_stale_safe (s : SessionState) (sel : Int) :
    (∃ s', submitAnswer s sel = .ok s') ∧
    (s.questions.length ≤ s.current_question →
      submitAnswer s sel = .ok (SessionState.mk s.questions (s.current_question + 1) s.score)) := by
  constructor
  · obtain ⟨s1, hok, _⟩ := submitAnswer_spec s sel
    exact ⟨s1, hok⟩
  · intro h
    unfold submitAnswer
    rw [if_neg (Nat.not_lt.mpr h)]

/-- Witness for C7 at a concrete stale submission. -/
theorem submitAnswer_stale_safe_witness :
    submitAnswer (SessionState.mk [] 5 3) 2 = .ok (SessionState.mk [] 6 3) :=
  (submitAnswer_stale_safe (SessionState.mk [] 5 3) 2).2 (by decide)

/-- C8 (corrected). As stated, the claim fails: a service error, an
unparsable response and a schema-violating response all produce the very
same return value `none`; no tag distinguishes them, so the caller cannot
tell the three kinds apart. -/
theorem generate_failure_kinds_counterexample :
    generate_quizzes .svcError 5 = generate_quizzes .unparsable 5 ∧
    generate_quizzes .unparsable 5 = generate_quizzes (.parsed (.str "not a mapping")) 5 ∧
    generate_quizzes .svcError 5 = none :=
  ⟨rfl, rfl, rfl⟩

/-- C8 (amended). Every failing call returns the single untagged failure
value `None`: service errors and parse failures always, and any parsed
response with fewer than `count` shapely elements; the kinds are
therefore not distinguishable by the caller. -/
theorem generate_failures_collapse (count : Nat) :
    generate_quizzes .svcError count = none ∧
    generate_quizzes .unparsable count = none ∧
    (∀ j, numValidQuestions j < count → generate_quizzes (.parsed j) count = none) :=
  ⟨rfl, rfl, fun j h => generate_too_few_valid j count h⟩

/-- Witness for C8 at a concrete schema failure. -/
theorem generate_failures_collapse_witness :
    generate_quizzes (.parsed (.int 0)) 5 = none :=
  (generate_failures_collapse 5).2.2 (.int 0) (by decide)

/-- C9 (confirmed). Every successful call returns exactly the elements of
the parsed questions list that have the shape, as a filter of the
original list, hence in their original relative order (a sublist). -/
theorem generate_preserves_order (j : Json) (count : Nat) (out : Json)
    (h : generate_quizzes (.parsed j) count = some out) :
    ∃ qs, questionsList j = some qs ∧
      out = .obj [("questions", .arr (qs.filter specValidElement))] ∧
      List.Sublist (qs.filter specValidElement) qs := by
  obtain ⟨qs, hq, _, _, hout⟩ := generate_success_shape j count out h
  exact ⟨qs, hq, hout, List.filter_sublist qs⟩

/-- Witness for C9 at a concrete successful call. -/
theorem generate_preserves_order_witness :
    ∃ qs, questionsList (.obj [("questions", .arr [sampleValidQuestion])]) = some qs ∧
      Json.obj [("questions", .arr [sampleValidQuestion])]
        = .obj [("questions", .arr (qs.filter specValidElement))] ∧
      List.Sublist (qs.filter specValidElement) qs :=
  generate_preserves_order (.obj [("questions", .arr [sampleValidQuestion])]) 1
    (.obj [("questions", .arr [sampleValidQuestion])]) rfl

/-- C10 (confirmed). A submission with no selected option is processed as
option 0: it is exactly a submission of 0, so it advances the index by
one and scores a point precisely when the current question exists and its
correct option index is 0. -/
theorem answer_missing_option_defaults_zero (s : SessionState) :
    answer none s = submitAnswer s 0 ∧
    (∀ q, s.questions.get? s.current_question = some q →
      answer none s = .ok (SessionState.mk s.questions (s.current_question + 1)
        (if q.correct_answer_index = 0 then s.score + 1 else s.score))) ∧
    (s.questions.get? s.current_question = none →
      answer none s = .ok (SessionState.mk s.questions (s.current_question + 1) s.score)) := by
  refine ⟨rfl, ?_, ?_⟩
  · intro q hq
    have hlt : s.current_question < s.questions.length := by
      by_contra hnot
      rw [List.get?_eq_none.mpr (Nat.le_of_not_lt hnot)] at hq
      cases hq
    show submitAnswer s 0 = _
    unfold submitAnswer
    rw [if_pos hlt, hq]
    by_cases hz : q.correct_answer_index = 0
    · simp [hz]
    · have hb : ((0 : Int) == q.correct_answer_index) = false :=
        beq_eq_false_iff_ne.mpr fun hh => hz hh.symm
      simp [hb, hz]
  · intro hq
    have hge : s.questions.length ≤ s.current_question := List.get?_eq_none.mp hq
    show submitAnswer s 0 = _
    unfold submitAnswer
    rw [if_neg (Nat.not_lt.mpr hge)]

/-- Witness for C10 at a concrete session whose current question has
correct option 0. -/
theorem answer_missing_option_defaults_zero_witness :
    answer none (initSession [sampleQuestion])
      = .ok (SessionState.mk [sampleQuestion] 1
          (if sampleQuestion.correct_answer_index = 0 then 1 else 0)) :=
  (answer_missing_option_defaults_zero (initSession [sampleQuestion])).2.1 sampleQuestion rfl
